import Mathlib

/-!
Shallow embedding of the `httptest` mock-HTTP-server core:
the request data model, the field-extractor mappers (`src/mappers/request.rs`)
and the expectation registry / dispatch engine (`src/server.rs`).
-/

namespace Httptest

/-- A header or query key/value pair: owned key text and owned value bytes
(`KV` from the mappers module; bytes are modelled as `Nat` lists). -/
structure KV where
  k : String
  v : List Nat
  deriving Repr, DecidableEq

/-- An HTTP request with a fully buffered body (the `FullRequest` type alias
`http::Request<hyper::body::Bytes>`): method text, URI path, optional URI
query text, ordered header sequence as received (name text, value bytes),
and body bytes. -/
structure HttpRequest where
  method : String
  uri_path : String
  uri_query : Option String
  headers : List (String × List Nat)
  body : List Nat

/-- An HTTP response: numeric status code and body text
(`http::Response<hyper::Body>`; bodies relevant to the claims are text). -/
structure HttpResponse where
  status : Nat
  body : String
  deriving Repr, DecidableEq

/-- A boxed request matcher (`Box<dyn Matcher<FullRequest>>`): its `matches`
predicate over full requests together with its `Debug` rendering, which the
server quotes in diagnostics. -/
structure Matcher where
  matchesReq : HttpRequest → Bool
  debugFmt : String

/-- `Times` from `server.rs`: how many requests should an expectation
receive. `between lo hi` stands for `Between(lo..=hi)` (inclusive range). -/
inductive Times where
  | any : Times
  | atLeast (n : Nat) : Times
  | atMost (n : Nat) : Times
  | between (lo hi : Nat) : Times
  | exactly (n : Nat) : Times
  deriving Repr, DecidableEq

/-- The derived `Debug` rendering of `Times` (a `RangeInclusive` prints as
`lo..=hi`). -/
def timesDebug : Times → String
  | Times.any => "Any"
  | Times.atLeast n => "AtLeast(" ++ toString n ++ ")"
  | Times.atMost n => "AtMost(" ++ toString n ++ ")"
  | Times.between lo hi => "Between(" ++ toString lo ++ "..=" ++ toString hi ++ ")"
  | Times.exactly n => "Exactly(" ++ toString n ++ ")"

/-- `cardinality_not_exceeded` from `server.rs`: the per-request
"not yet exceeded" envelope, evaluated on the post-increment hit count. -/
def cardinality_not_exceeded (cardinality : Times) (hit_count : Nat) : Bool :=
  match cardinality with
  | Times.any => true
  | Times.atLeast _ => true
  | Times.atMost limit => if hit_count ≤ limit then true else false
  | Times.between _ hi => if hit_count ≤ hi then true else false
  | Times.exactly limit => if hit_count ≤ limit then true else false

/-- `hit_count_is_valid` from `server.rs`: final validity of a hit count
against the cardinality contract, checked at verification time. -/
def hit_count_is_valid (cardinality : Times) (hit_count : Nat) : Bool :=
  match cardinality with
  | Times.any => true
  | Times.atLeast lower_bound => if hit_count ≥ lower_bound then true else false
  | Times.atMost limit => if hit_count ≤ limit then true else false
  | Times.between lo hi => if hit_count ≤ hi ∧ hit_count ≥ lo then true else false
  | Times.exactly limit => if hit_count = limit then true else false

/-- An `Expectation` from `server.rs`: a boxed matcher, a cardinality
contract, a boxed responder (modelled by the response it produces, since
`Responder::respond` yields a response future) and a mutable hit counter. -/
structure Expectation where
  matcher : Matcher
  cardinality : Times
  responder : HttpResponse
  hit_count : Nat

/-- `ServerStateInner` from `server.rs`: the registry shared state — the
unmatched-request counter plus the ordered expectation sequence
(registration order; `push_expectation` appends at the end). -/
structure ServerStateInner where
  unexpected_requests : Nat
  expected : List Expectation

/-- `ServerStateInner::default()`: zero unmatched requests, no
expectations. -/
def ServerStateInner.default : ServerStateInner :=
  { unexpected_requests := 0, expected := [] }

/-- `ServerState::push_expectation`: append an expectation to the registry. -/
def push_expectation (state : ServerStateInner) (expectation : Expectation) :
    ServerStateInner :=
  { state with expected := state.expected ++ [expectation] }

/-- `Expectation::matching(..).respond_with(..)` without `times`: the builder
defaults the cardinality to `Exactly(1)` and starts `hit_count` at 0. -/
def Expectation.build (matcher : Matcher) (responder : HttpResponse) : Expectation :=
  { matcher := matcher, cardinality := Times.exactly 1, responder := responder,
    hit_count := 0 }

/-- `cardinality_error` from `server.rs`: the synthesized 500
(`INTERNAL_SERVER_ERROR`) response produced when a matched expectation has
exceeded its cardinality envelope. -/
def cardinality_error (matcher : Matcher) (cardinality : Times) (hit_count : Nat) :
    HttpResponse :=
  { status := 500,
    body := "Unexpected number of requests for matcher \x27" ++ matcher.debugFmt
      ++ "\x27; received " ++ toString hit_count ++ "; expected "
      ++ timesDebug cardinality }

/-- The loop body of `on_req` over `state.expected.iter_mut().rev()`: scan a
list of expectations front to back (the caller passes the reversed registry),
and at the first expectation whose matcher matches the request, increment its
hit counter and produce either its configured response (when the cardinality
envelope is not exceeded) or the `cardinality_error` response. `none` when no
expectation matches. Returns the updated list alongside the response. -/
def dispatchRev (req : HttpRequest) :
    List Expectation → Option (List Expectation × HttpResponse)
  | [] => none
  | expectation :: rest =>
    if expectation.matcher.matchesReq req then
      let bumped : Expectation := { expectation with hit_count := expectation.hit_count + 1 }
      if cardinality_not_exceeded expectation.cardinality bumped.hit_count then
        some (bumped :: rest, expectation.responder)
      else
        some (bumped :: rest,
          cardinality_error expectation.matcher expectation.cardinality bumped.hit_count)
    else
      match dispatchRev req rest with
      | none => none
      | some (rest2, resp) => some (expectation :: rest2, resp)

/-- `on_req` from `server.rs`: dispatch one buffered request against the
registry. Expectations are scanned most-recently-registered first; if none
matches, the unmatched-request counter is incremented and a synthesized
500 "No matcher found" response is produced. -/
def on_req (state : ServerStateInner) (req : HttpRequest) :
    ServerStateInner × HttpResponse :=
  match dispatchRev req state.expected.reverse with
  | some (rev2, resp) => ({ state with expected := rev2.reverse }, resp)
  | none =>
    ({ state with unexpected_requests := state.unexpected_requests + 1 },
     { status := 500, body := "No matcher found" })

/-- The panic message of `verify_and_clear` for an invalid expectation. -/
def verifyError (expectation : Expectation) : String :=
  "Unexpected number of requests for matcher \x27" ++ expectation.matcher.debugFmt
    ++ "\x27; received " ++ toString expectation.hit_count ++ "; expected "
    ++ timesDebug expectation.cardinality

/-- `Server::verify_and_clear` from `server.rs`. `panicking` mirrors
`std::thread::panicking()`. The second component is `some message` when the
function panics (the registry is left as the panic found it) and `none` when
it returns normally. On the already-panicking path only the expectation
sequence is cleared; on normal success the whole state is reset to default. -/
def verify_and_clear (panicking : Bool) (state : ServerStateInner) :
    ServerStateInner × Option String :=
  if panicking then
    ({ state with expected := [] }, none)
  else
    match state.expected.find? (fun e => ! hit_count_is_valid e.cardinality e.hit_count) with
    | some e => (state, some (verifyError e))
    | none =>
      if state.unexpected_requests ≠ 0 then
        (state, some (toString state.unexpected_requests ++ " unexpected requests received"))
      else
        (ServerStateInner.default, none)

/-- Run `count` identical requests through `on_req`, threading the registry
state and collecting the responses in chronological order. -/
def runRequests (req : HttpRequest) : Nat → ServerStateInner → ServerStateInner × List HttpResponse
  | 0, state => (state, [])
  | count + 1, state =>
    let step := on_req state req
    let rest := runRequests req count step.1
    (rest.1, step.2 :: rest.2)

/-!
Field extractor mappers from `src/mappers/request.rs`. Each extractor
projects one field of the request and delegates to an inner mapper; inner
mappers over a narrower type `T` with output `Out` are modelled as functions
`T → Out`.
-/

/-- `Method::map`: pass the request method text to the inner mapper. -/
def Method.map (inner : String → α) (input : HttpRequest) : α :=
  inner input.method

/-- `Path::map`: pass the request URI path to the inner mapper. -/
def Path.map (inner : String → α) (input : HttpRequest) : α :=
  inner input.uri_path

/-- `Query.map`: pass the request URI query, or the empty string when the URI
carries no query component (`input.uri().query().unwrap_or("")`), to the
inner mapper. -/
def Query.map (inner : String → α) (input : HttpRequest) : α :=
  inner (input.uri_query.getD "")

/-- `Headers::map`: build the owned KV sequence from the request header
sequence (key text, value bytes, in received order) and pass it to the inner
mapper. -/
def Headers.map (inner : List KV → α) (input : HttpRequest) : α :=
  inner (input.headers.map (fun h => { k := h.1, v := h.2 }))

/-- `Body::map`: pass the buffered body bytes to the inner mapper. -/
def Body.map (inner : List Nat → α) (input : HttpRequest) : α :=
  inner input.body

/-- `MethodPath::map`: the fused method+path extractor; `&&` short-circuits
on the method predicate before evaluating the path predicate. -/
def MethodPath.map (method : String → Bool) (path : String → Bool)
    (input : HttpRequest) : Bool :=
  method input.method && path input.uri_path

/-- Modelled from the spec: the leaf equality matcher (`eq`, a leaf
predicate external to the shown core) — boolean equality with an expected
value. -/
def eqMatcher [BEq α] (expected : α) : α → Bool :=
  fun input => input == expected

/-- Modelled from the spec: the sequence containment matcher (`contains`
over a KV sequence, a leaf predicate external to the shown core) — true
iff some element of the sequence equals the expected entry. -/
def containsMatcher (expected : KV) : List KV → Bool :=
  fun seq => seq.any (fun entry => entry == expected)

/-!
Concrete sample values used to exercise the definitions on closed inputs.
-/

/-- A sample GET request with no query component and a duplicated header
name. -/
def demoReq : HttpRequest :=
  { method := "GET", uri_path := "/foo", uri_query := none,
    headers := [("host", [1]), ("host", [2])], body := [] }

/-- A sample matcher accepting every GET request. -/
def demoMatcher : Matcher :=
  { matchesReq := fun r => r.method == "GET", debugFmt := "method GET" }

/-- A sample matcher accepting nothing. -/
def demoMatcherNever : Matcher :=
  { matchesReq := fun _ => false, debugFmt := "never" }

/-- A sample configured response. -/
def demoResponse : HttpResponse := { status := 200, body := "ok" }

/-- A second sample configured response, distinguishable from the first. -/
def demoResponse2 : HttpResponse := { status := 201, body := "ok2" }

/-- A sample expectation: match every GET, respond `demoResponse`,
cardinality `Exactly(1)`, zero hits so far. -/
def demoExpectation : Expectation :=
  { matcher := demoMatcher, cardinality := Times.exactly 1,
    responder := demoResponse, hit_count := 0 }

/-- A second sample expectation with the same matcher but a different
responder. -/
def demoExpectation2 : Expectation :=
  { matcher := demoMatcher, cardinality := Times.exactly 1,
    responder := demoResponse2, hit_count := 0 }

/-- The response produced when an expectation is selected: configured
response inside the envelope, `cardinality_error` once blown (envelope
checked on the post-increment hit count). -/
def stepResponse (e : Expectation) : HttpResponse :=
  if cardinality_not_exceeded e.cardinality (e.hit_count + 1) then e.responder
  else cardinality_error e.matcher e.cardinality (e.hit_count + 1)

lemma dispatchRev_cons_match (req : HttpRequest) (e : Expectation)
    (rest : List Expectation) (h : e.matcher.matchesReq req = true) :
    dispatchRev req (e :: rest) =
      some ({ e with hit_count := e.hit_count + 1 } :: rest, stepResponse e) := by
  by_cases hc : cardinality_not_exceeded e.cardinality (e.hit_count + 1) = true
  · simp [dispatchRev, h, stepResponse, hc]
  · simp [dispatchRev, h, stepResponse, hc]

lemma dispatchRev_cons_nomatch (req : HttpRequest) (e : Expectation)
    (rest : List Expectation) (h : e.matcher.matchesReq req = false) :
    dispatchRev req (e :: rest) =
      (dispatchRev req rest).map (fun p => (e :: p.1, p.2)) := by
  cases hd : dispatchRev req rest with
  | none => simp [dispatchRev, h, hd]
  | some p => simp [dispatchRev, h, hd]

lemma dispatchRev_eq_none (req : HttpRequest) (l : List Expectation)
    (h : ∀ x ∈ l, x.matcher.matchesReq req = false) :
    dispatchRev req l = none := by
  induction l with
  | nil => rfl
  | cons e rest ih =>
    have he : e.matcher.matchesReq req = false := h e (List.mem_cons_self e rest)
    have hrest : dispatchRev req rest = none :=
      ih (fun x hx => h x (List.mem_cons_of_mem e hx))
    rw [dispatchRev_cons_nomatch req e rest he, hrest]
    rfl

lemma dispatchRev_append_none (req : HttpRequest) (l1 l2 : List Expectation)
    (h : dispatchRev req l1 = none) :
    dispatchRev req (l1 ++ l2) =
      (dispatchRev req l2).map (fun p => (l1 ++ p.1, p.2)) := by
  induction l1 with
  | nil =>
    cases hd : dispatchRev req l2 with
    | none => simp [hd]
    | some p => simp [hd]
  | cons e rest ih =>
    by_cases he : e.matcher.matchesReq req = true
    · rw [dispatchRev_cons_match req e rest he] at h
      exact absurd h (by simp)
    · have he2 : e.matcher.matchesReq req = false := Bool.eq_false_iff.mpr he
      rw [dispatchRev_cons_nomatch req e rest he2] at h
      have hrest : dispatchRev req rest = none := by
        cases hd : dispatchRev req rest with
        | none => rfl
        | some p => rw [hd] at h; simp at h
      rw [List.cons_append, dispatchRev_cons_nomatch req e (rest ++ l2) he2, ih hrest]
      cases hd : dispatchRev req l2 with
      | none => rfl
      | some p => simp

lemma dispatchRev_append_isSome (req : HttpRequest) (l1 l2 : List Expectation)
    (h : (dispatchRev req l1).isSome = true) :
    dispatchRev req (l1 ++ l2) =
      (dispatchRev req l1).map (fun p => (p.1 ++ l2, p.2)) := by
  induction l1 with
  | nil => simp [dispatchRev] at h
  | cons e rest ih =>
    by_cases he : e.matcher.matchesReq req = true
    · rw [List.cons_append, dispatchRev_cons_match req e (rest ++ l2) he,
        dispatchRev_cons_match req e rest he]
      simp
    · have he2 : e.matcher.matchesReq req = false := Bool.eq_false_iff.mpr he
      rw [dispatchRev_cons_nomatch req e rest he2] at h ⊢
      rw [List.cons_append, dispatchRev_cons_nomatch req e (rest ++ l2) he2]
      have hrest : (dispatchRev req rest).isSome = true := by
        cases hd : dispatchRev req rest with
        | none => rw [hd] at h; simp at h
        | some p => rfl
      rw [ih hrest]
      cases hd : dispatchRev req rest with
      | none => rw [hd] at hrest; simp at hrest
      | some p => simp

lemma dispatchRev_isSome_of_mem (req : HttpRequest) (l : List Expectation)
    (e : Expectation) (hmem : e ∈ l) (h : e.matcher.matchesReq req = true) :
    (dispatchRev req l).isSome = true := by
  induction l with
  | nil => cases hmem
  | cons a rest ih =>
    by_cases ha : a.matcher.matchesReq req = true
    · rw [dispatchRev_cons_match req a rest ha]; rfl
    · have ha2 : a.matcher.matchesReq req = false := Bool.eq_false_iff.mpr ha
      have hmem2 : e ∈ rest := by
        cases hmem with
        | head => rw [h] at ha2; cases ha2
        | tail _ hm => exact hm
      have hs := ih hmem2
      rw [dispatchRev_cons_nomatch req a rest ha2]
      cases hd : dispatchRev req rest with
      | none => rw [hd] at hs; simp at hs
      | some p => rfl

lemma dispatchRev_length (req : HttpRequest) (l : List Expectation)
    (p : List Expectation × HttpResponse) (h : dispatchRev req l = some p) :
    p.1.length = l.length := by
  induction l generalizing p with
  | nil => simp [dispatchRev] at h
  | cons e rest ih =>
    by_cases he : e.matcher.matchesReq req = true
    · rw [dispatchRev_cons_match req e rest he] at h
      have h1 := congrArg Prod.fst (Option.some.inj h)
      simp only at h1
      rw [← h1]
      simp
    · have he2 : e.matcher.matchesReq req = false := Bool.eq_false_iff.mpr he
      rw [dispatchRev_cons_nomatch req e rest he2] at h
      cases hd : dispatchRev req rest with
      | none => rw [hd] at h; simp at h
      | some q =>
        rw [hd] at h
        have h1 := congrArg Prod.fst (Option.some.inj h)
        simp only at h1
        rw [← h1]
        simp [ih q hd]

/-- Core dispatch lemma: when the registry splits as `A ++ e :: B` with `e`
matching and everything after it (more recently registered) not matching,
`on_req` bumps exactly `e`'s hit counter and produces `stepResponse e`. -/
lemma on_req_selects (s : ServerStateInner) (req : HttpRequest)
    (A B : List Expectation) (e : Expectation)
    (hs : s.expected = A ++ e :: B)
    (he : e.matcher.matchesReq req = true)
    (hB : ∀ x ∈ B, x.matcher.matchesReq req = false) :
    on_req s req =
      ({ s with expected := A ++ { e with hit_count := e.hit_count + 1 } :: B },
       stepResponse e) := by
  have hrev : s.expected.reverse = B.reverse ++ e :: A.reverse := by
    rw [hs]; simp
  have hBrev : dispatchRev req B.reverse = none :=
    dispatchRev_eq_none req B.reverse (fun x hx => hB x (List.mem_reverse.mp hx))
  have hcons := dispatchRev_cons_match req e A.reverse he
  have hall : dispatchRev req s.expected.reverse =
      some (B.reverse ++ { e with hit_count := e.hit_count + 1 } :: A.reverse,
        stepResponse e) := by
    rw [hrev, dispatchRev_append_none req B.reverse (e :: A.reverse) hBrev, hcons]
    rfl
  unfold on_req
  rw [hall]
  simp

/-- When no registered expectation matches, `on_req` bumps only the
unmatched-request counter and produces the "No matcher found" response. -/
lemma on_req_nomatch (s : ServerStateInner) (req : HttpRequest)
    (h : ∀ x ∈ s.expected, x.matcher.matchesReq req = false) :
    on_req s req =
      ({ s with unexpected_requests := s.unexpected_requests + 1 },
       { status := 500, body := "No matcher found" }) := by
  have hnone : dispatchRev req s.expected.reverse = none :=
    dispatchRev_eq_none req _ (fun x hx => h x (List.mem_reverse.mp hx))
  unfold on_req
  rw [hnone]

/-- Verification panics as soon as the unmatched counter is nonzero (it may
panic earlier, on an invalid expectation). -/
lemma verify_isSome_iff (s : ServerStateInner) :
    ((verify_and_clear false s).2).isSome = true ↔
      (∃ e ∈ s.expected, hit_count_is_valid e.cardinality e.hit_count = false) ∨
        s.unexpected_requests ≠ 0 := by
  unfold verify_and_clear
  simp only [Bool.false_eq_true, if_false]
  cases hf : s.expected.find? (fun e => ! hit_count_is_valid e.cardinality e.hit_count) with
  | some e =>
    simp only [Option.isSome_some, true_iff]
    left
    refine ⟨e, List.mem_of_find?_eq_some hf, ?_⟩
    have := List.find?_some hf
    simpa using this
  | none =>
    have hvalid : ∀ e ∈ s.expected,
        hit_count_is_valid e.cardinality e.hit_count = true := by
      intro e he
      have := List.find?_eq_none.mp hf e he
      simpa using this
    by_cases hu : s.unexpected_requests ≠ 0
    · rw [if_pos hu]
      simp only [Option.isSome_some]
      exact iff_of_true trivial (Or.inr hu)
    · rw [if_neg hu]
      simp only [Option.isSome_none]
      constructor
      · intro hc; exact absurd hc (by simp)
      · rintro (⟨e, he, hbad⟩ | hne)
        · rw [hvalid e he] at hbad; cases hbad
        · exact absurd hne hu

lemma take_append_cons (A L : List Expectation) (e : Expectation) :
    (A ++ e :: L).take (A.length + 1) = A ++ [e] := by
  rw [List.take_append_eq_append_take, List.take_of_length_le (by omega)]
  have h1 : A.length + 1 - A.length = 1 := by omega
  rw [h1]
  rfl

/-- C1: dispatch scans the registry most-recently-registered first, so when
two registered expectations both match a request, the expectation at or
before the earlier one is left untouched (never selected), and when the
later one is the most recent match it is the one selected. -/
theorem on_req_selects_newest_match (s : ServerStateInner) (req : HttpRequest)
    (A M B : List Expectation) (e1 e2 : Expectation)
    (hs : s.expected = A ++ e1 :: M ++ e2 :: B)
    (h1 : e1.matcher.matchesReq req = true)
    (h2 : e2.matcher.matchesReq req = true) :
    (on_req s req).1.expected.take (A.length + 1) =
      s.expected.take (A.length + 1) ∧
    ((∀ x ∈ B, x.matcher.matchesReq req = false) →
      (on_req s req).1 =
        { s with expected :=
            A ++ e1 :: M ++ { e2 with hit_count := e2.hit_count + 1 } :: B }) := by
  constructor
  · have hP : (dispatchRev req (B.reverse ++ [e2])).isSome = true :=
      dispatchRev_isSome_of_mem req _ e2 (by simp) h2
    obtain ⟨p, hp⟩ := Option.isSome_iff_exists.mp hP
    have hall := dispatchRev_append_isSome req (B.reverse ++ [e2])
      (M.reverse ++ e1 :: A.reverse) hP
    rw [hp] at hall
    have hrearr : s.expected.reverse =
        (B.reverse ++ [e2]) ++ (M.reverse ++ e1 :: A.reverse) := by
      rw [hs]; simp
    have hnew : (on_req s req).1.expected =
        (A ++ e1 :: M) ++ p.1.reverse := by
      unfold on_req
      rw [hrearr, hall]
      simp
    rw [hnew, hs]
    simp only [List.append_assoc, List.cons_append]
    rw [take_append_cons A (M ++ p.1.reverse) e1, take_append_cons A (M ++ e2 :: B) e1]
  · intro hB
    have hs2 : s.expected = (A ++ e1 :: M) ++ e2 :: B := by rw [hs]
    have := on_req_selects s req (A ++ e1 :: M) B e2 hs2 h2 hB
    rw [this]

/-- C1 witness: with two sample expectations both matching the sample GET
request, dispatch selects the later-registered one and leaves the earlier
one untouched. -/
theorem on_req_selects_newest_match_witness :
    (on_req { unexpected_requests := 0,
              expected := [demoExpectation, demoExpectation2] } demoReq).1 =
      { unexpected_requests := 0,
        expected := [demoExpectation,
          { demoExpectation2 with
              hit_count := demoExpectation2.hit_count + 1 }] } :=
  (on_req_selects_newest_match
    { unexpected_requests := 0, expected := [demoExpectation, demoExpectation2] }
    demoReq [] [] [] demoExpectation demoExpectation2 rfl rfl rfl).2
    (by intro x hx; cases hx)

/-- C2: for a matched request, the first reverse-order matching expectation
gets its hit counter bumped by exactly one and no other registry field
changes; the envelope is evaluated on the post-increment hit count (Any and
AtLeast always pass, AtMost/Between/Exactly compare against their upper
bound); inside the envelope the configured response is produced, outside it
the synthesized 500 `cardinality_error` response. -/
theorem on_req_hit_increment_and_envelope (s : ServerStateInner)
    (req : HttpRequest) (A B : List Expectation) (e : Expectation)
    (hs : s.expected = A ++ e :: B)
    (he : e.matcher.matchesReq req = true)
    (hB : ∀ x ∈ B, x.matcher.matchesReq req = false) :
    (on_req s req).1.expected =
      A ++ { e with hit_count := e.hit_count + 1 } :: B ∧
    (on_req s req).1.unexpected_requests = s.unexpected_requests ∧
    (cardinality_not_exceeded e.cardinality (e.hit_count + 1) = true →
      (on_req s req).2 = e.responder) ∧
    (cardinality_not_exceeded e.cardinality (e.hit_count + 1) = false →
      (on_req s req).2 = cardinality_error e.matcher e.cardinality (e.hit_count + 1) ∧
      (on_req s req).2.status = 500) ∧
    (∀ n, cardinality_not_exceeded Times.any n = true) ∧
    (∀ lb n, cardinality_not_exceeded (Times.atLeast lb) n = true) ∧
    (∀ m n, cardinality_not_exceeded (Times.atMost m) n = decide (n ≤ m)) ∧
    (∀ lo hi n, cardinality_not_exceeded (Times.between lo hi) n = decide (n ≤ hi)) ∧
    (∀ m n, cardinality_not_exceeded (Times.exactly m) n = decide (n ≤ m)) := by
  have hmain := on_req_selects s req A B e hs he hB
  rw [hmain]
  refine ⟨rfl, rfl, ?_, ?_, ?_, ?_, ?_, ?_, ?_⟩
  · intro hc
    unfold stepResponse
    rw [if_pos hc]
  · intro hc
    unfold stepResponse
    rw [if_neg (by rw [hc]; exact Bool.false_ne_true)]
    exact ⟨rfl, rfl⟩
  · intro n; rfl
  · intro lb n; rfl
  · intro m n
    by_cases h : n ≤ m <;> simp [cardinality_not_exceeded, h]
  · intro lo hi n
    by_cases h : n ≤ hi <;> simp [cardinality_not_exceeded, h]
  · intro m n
    by_cases h : n ≤ m <;> simp [cardinality_not_exceeded, h]

/-- C2 witness: dispatching the sample GET request against the sample
`Exactly(1)` expectation with zero hits bumps its counter and yields the
configured response. -/
theorem on_req_hit_increment_and_envelope_witness :
    cardinality_not_exceeded demoExpectation.cardinality
      (demoExpectation.hit_count + 1) = true ∧
    (on_req { unexpected_requests := 0, expected := [demoExpectation] }
        demoReq).1.expected =
      [{ demoExpectation with hit_count := demoExpectation.hit_count + 1 }] ∧
    (on_req { unexpected_requests := 0, expected := [demoExpectation] }
        demoReq).2 = demoExpectation.responder :=
  have h := on_req_hit_increment_and_envelope
    { unexpected_requests := 0, expected := [demoExpectation] } demoReq
    [] [] demoExpectation rfl rfl (by intro x hx; cases hx)
  ⟨rfl, h.1, h.2.2.1 rfl⟩

/-- C3: outside an already-panicking test, verification panics iff some
registered expectation's final hit count is invalid for its cardinality or
the unmatched-request counter is nonzero, where final validity is: Any
always; AtLeast(n) iff hit ≥ n; AtMost(n) iff hit ≤ n; Between(lo,hi) iff
lo ≤ hit ≤ hi; Exactly(n) iff hit = n. -/
theorem verify_and_clear_fails_iff :
    (∀ s : ServerStateInner,
      ((verify_and_clear false s).2).isSome = true ↔
        (∃ e ∈ s.expected,
            hit_count_is_valid e.cardinality e.hit_count = false) ∨
          s.unexpected_requests ≠ 0) ∧
    (∀ n, hit_count_is_valid Times.any n = true) ∧
    (∀ lb n, hit_count_is_valid (Times.atLeast lb) n = decide (n ≥ lb)) ∧
    (∀ m n, hit_count_is_valid (Times.atMost m) n = decide (n ≤ m)) ∧
    (∀ lo hi n, hit_count_is_valid (Times.between lo hi) n =
      decide (lo ≤ n ∧ n ≤ hi)) ∧
    (∀ m n, hit_count_is_valid (Times.exactly m) n = decide (n = m)) := by
  refine ⟨verify_isSome_iff, fun n => rfl, ?_, ?_, ?_, ?_⟩
  · intro lb n
    by_cases h : n ≥ lb <;> simp [hit_count_is_valid, h]
  · intro m n
    by_cases h : n ≤ m <;> simp [hit_count_is_valid, h]
  · intro lo hi n
    by_cases h1 : n ≤ hi <;> by_cases h2 : lo ≤ n <;>
      simp [hit_count_is_valid, h1, h2]
  · intro m n
    by_cases h : n = m <;> simp [hit_count_is_valid, h]

/-- C5 counterexample: invoked during an already-panicking test with a
nonzero unmatched-request counter, verification completes without aborting
yet the unmatched-request counter is not reset. -/
theorem verify_and_clear_reset_counterexample :
    (verify_and_clear true { unexpected_requests := 1, expected := [] }).2 = none ∧
    (verify_and_clear true
      { unexpected_requests := 1, expected := [] }).1.unexpected_requests ≠ 0 :=
  ⟨rfl, by decide⟩

/-- C5 (amended): when verification is invoked outside a panicking test and
completes without aborting, the registry is fully reset to the default empty
state; when invoked during an already-panicking test it completes without
aborting but clears only the expectation sequence, leaving the
unmatched-request counter unchanged. -/
theorem verify_and_clear_reset_amended (s : ServerStateInner) :
    ((verify_and_clear false s).2 = none →
      (verify_and_clear false s).1 = ServerStateInner.default) ∧
    (verify_and_clear true s).2 = none ∧
    (verify_and_clear true s).1.expected = [] ∧
    (verify_and_clear true s).1.unexpected_requests = s.unexpected_requests := by
  refine ⟨?_, rfl, rfl, rfl⟩
  intro h
  cases hf : s.expected.find?
      (fun e => ! hit_count_is_valid e.cardinality e.hit_count) with
  | some e => simp [verify_and_clear, hf] at h
  | none =>
    by_cases hu : s.unexpected_requests = 0
    · simp [verify_and_clear, hf, hu]
    · simp [verify_and_clear, hf, hu] at h

/-- C5 witness: on the empty default registry, verification outside a
panicking test succeeds and resets the state to default. -/
theorem verify_and_clear_reset_amended_witness :
    (verify_and_clear false ServerStateInner.default).2 = none ∧
    (verify_and_clear false ServerStateInner.default).1 = ServerStateInner.default :=
  ⟨rfl, (verify_and_clear_reset_amended ServerStateInner.default).1 rfl⟩

/-- C6: when no registered expectation matches (in particular with zero
expectations registered), dispatch bumps only the unmatched-request counter,
answers with the synthesized 500 "No matcher found" response, leaves every
expectation (hence every hit counter) unchanged, and a subsequent
verification outside a panicking test fails. -/
theorem on_req_no_match_behavior (s : ServerStateInner) (req : HttpRequest)
    (h : ∀ x ∈ s.expected, x.matcher.matchesReq req = false) :
    on_req s req =
      ({ s with unexpected_requests := s.unexpected_requests + 1 },
        { status := 500, body := "No matcher found" }) ∧
    (on_req s req).1.expected = s.expected ∧
    ((verify_and_clear false (on_req s req).1).2).isSome = true := by
  have hmain := on_req_nomatch s req h
  refine ⟨hmain, by rw [hmain], ?_⟩
  rw [hmain]
  exact (verify_isSome_iff _).mpr (Or.inr (Nat.succ_ne_zero _))

/-- C6 witness: a request against an empty registry yields the 500
"No matcher found" response and the bumped unmatched counter. -/
theorem on_req_no_match_behavior_witness :
    on_req { unexpected_requests := 0, expected := [] } demoReq =
      ({ unexpected_requests := 1, expected := [] },
        { status := 500, body := "No matcher found" }) :=
  (on_req_no_match_behavior { unexpected_requests := 0, expected := [] }
    demoReq (by intro x hx; cases hx)).1

/-- C7: the query extractor hands the inner mapper the empty string when the
URI has no query component (it never fails), so `query("")` matches such a
request; when a query component is present the inner mapper receives exactly
that query text. -/
theorem query_extractor_empty_default {α : Type} (inner : String → α)
    (req : HttpRequest) :
    (req.uri_query = none → Query.map inner req = inner "") ∧
    (∀ q, req.uri_query = some q → Query.map inner req = inner q) ∧
    (req.uri_query = none → Query.map (eqMatcher "") req = true) := by
  refine ⟨?_, ?_, ?_⟩
  · intro h; unfold Query.map; rw [h]; rfl
  · intro q h; unfold Query.map; rw [h]; rfl
  · intro h; unfold Query.map; rw [h]; rfl

/-- C7 witness: the sample request carries no query and `query("")` matches
it. -/
theorem query_extractor_empty_default_witness :
    Query.map (eqMatcher "") demoReq = true :=
  (query_extractor_empty_default (eqMatcher "") demoReq).2.2 rfl

/-- C8: the fused `method_path(m, p)` extractor returns the conjunction of
`m` on the request method and `p` on the request path — equal to the all-of
combination of the `method(m)` and `path(p)` extractors — so it rejects a
request whose method matches but whose path does not, and vice versa. -/
theorem method_path_conjunction (m p : String → Bool) (req : HttpRequest) :
    MethodPath.map m p req = (Method.map m req && Path.map p req) ∧
    (MethodPath.map m p req = true ↔
      (m req.method = true ∧ p req.uri_path = true)) ∧
    (m req.method = true → p req.uri_path = false →
      MethodPath.map m p req = false) ∧
    (m req.method = false → MethodPath.map m p req = false) := by
  refine ⟨rfl, ?_, ?_, ?_⟩
  · unfold MethodPath.map
    exact iff_of_eq (Bool.and_eq_true _ _)
  · intro hm hp
    unfold MethodPath.map
    rw [hm, hp]
    rfl
  · intro hm
    unfold MethodPath.map
    rw [hm]
    rfl

/-- C8 witness: on the sample GET /foo request, `method_path` with a wrong
path predicate rejects although the method predicate accepts. -/
theorem method_path_conjunction_witness :
    eqMatcher "GET" demoReq.method = true ∧
    eqMatcher "/x" demoReq.uri_path = false ∧
    MethodPath.map (eqMatcher "GET") (eqMatcher "/x") demoReq = false :=
  ⟨rfl, rfl,
    (method_path_conjunction (eqMatcher "GET") (eqMatcher "/x") demoReq).2.2.1
      rfl rfl⟩

/-- C9: the headers extractor hands the inner mapper the KV sequence built
from the request's header sequence, preserving received order and
multiplicities (projecting the KV entries back gives exactly the header
sequence), and the containment matcher finds every occurrence, including
each of two same-named headers. -/
theorem headers_extractor_order_preserving (req : HttpRequest) :
    Headers.map (List.map (fun kv => (kv.k, kv.v))) req = req.headers ∧
    Headers.map List.length req = req.headers.length ∧
    (∀ h ∈ req.headers,
      Headers.map (containsMatcher { k := h.1, v := h.2 }) req = true) := by
  refine ⟨?_, ?_, ?_⟩
  · unfold Headers.map
    rw [List.map_map]
    exact List.map_id req.headers
  · simp [Headers.map]
  · intro h hmem
    unfold Headers.map containsMatcher
    rw [List.any_eq_true]
    refine ⟨{ k := h.1, v := h.2 }, List.mem_map_of_mem _ hmem, ?_⟩
    simp

/-- C9 witness: the sample request carries two `host` headers; the
containment matcher finds the second occurrence. -/
theorem headers_extractor_order_preserving_witness :
    Headers.map (containsMatcher { k := "host", v := [2] }) demoReq = true :=
  (headers_extractor_order_preserving demoReq).2.2 ("host", [2]) (by simp [demoReq])

lemma stepResponse_update (e : Expectation) (h : Nat) :
    stepResponse { e with hit_count := h } =
      if cardinality_not_exceeded e.cardinality (h + 1) then e.responder
      else cardinality_error e.matcher e.cardinality (h + 1) := rfl

lemma stepResponse_mk (m : Matcher) (c : Times) (r : HttpResponse) (h : Nat) :
    stepResponse { matcher := m, cardinality := c, responder := r, hit_count := h } =
      if cardinality_not_exceeded c (h + 1) then r
      else cardinality_error m c (h + 1) := rfl

lemma on_req_single (req : HttpRequest) (u : Nat) (e : Expectation)
    (he : e.matcher.matchesReq req = true) :
    on_req { unexpected_requests := u, expected := [e] } req =
      ({ unexpected_requests := u,
         expected := [{ e with hit_count := e.hit_count + 1 }] },
       stepResponse e) := by
  have h := on_req_selects { unexpected_requests := u, expected := [e] } req
    [] [] e rfl he (by intro x hx; cases hx)
  simpa using h

lemma runRequests_single (req : HttpRequest) (u : Nat) (k : Nat) :
    ∀ e : Expectation, e.matcher.matchesReq req = true →
    runRequests req k { unexpected_requests := u, expected := [e] } =
      ({ unexpected_requests := u,
         expected := [{ e with hit_count := e.hit_count + k }] },
       (List.range k).map
         (fun i => stepResponse { e with hit_count := e.hit_count + i })) := by
  induction k with
  | zero =>
    intro e he
    simp [runRequests]
  | succ k ih =>
    intro e he
    have hih := ih { e with hit_count := e.hit_count + 1 } he
    simp only [runRequests]
    rw [on_req_single req u e he]
    simp only
    rw [hih]
    simp only [List.range_succ_eq_map, List.map_cons, List.map_map]
    rw [Prod.mk.injEq]
    constructor
    · have harith : e.hit_count + 1 + k = e.hit_count + (k + 1) := by omega
      rw [harith]
    · rw [List.cons.injEq]
      constructor
      · have h00 : e.hit_count + 0 = e.hit_count := by omega
        rw [h00]
      · apply List.map_congr_left
        intro i _
        simp only [Function.comp]
        have harith : e.hit_count + 1 + i = e.hit_count + (i + 1) := by omega
        rw [harith]

/-- C4: for a single expectation with cardinality `Exactly(n)` matching
every issued request, the run of n requests each yields the configured
response and verification then succeeds; in the run of n+1 requests the
first n yield the configured response, the (n+1)-th yields the synthesized
500 `cardinality_error` response, and verification then fails. -/
theorem exactly_n_scenario (n : Nat) (e : Expectation) (req : HttpRequest)
    (he : e.matcher.matchesReq req = true)
    (hc : e.cardinality = Times.exactly n)
    (h0 : e.hit_count = 0) :
    (verify_and_clear false
      (runRequests req n { unexpected_requests := 0, expected := [e] }).1).2 =
      none ∧
    (∀ k, k < n →
      (runRequests req (n + 1)
          { unexpected_requests := 0, expected := [e] }).2[k]? =
        some e.responder) ∧
    (runRequests req (n + 1)
        { unexpected_requests := 0, expected := [e] }).2[n]? =
      some (cardinality_error e.matcher (Times.exactly n) (n + 1)) ∧
    (cardinality_error e.matcher (Times.exactly n) (n + 1)).status = 500 ∧
    ((verify_and_clear false
      (runRequests req (n + 1)
        { unexpected_requests := 0, expected := [e] }).1).2).isSome = true := by
  have hrun_n := runRequests_single req 0 n e he
  have hrun_n1 := runRequests_single req 0 (n + 1) e he
  refine ⟨?_, ?_, ?_, rfl, ?_⟩
  · rw [hrun_n]
    simp [verify_and_clear, List.find?, hit_count_is_valid, hc, h0]
  · intro k hk
    have hcond : cardinality_not_exceeded (Times.exactly n) (k + 1) = true := by
      show (if k + 1 ≤ n then true else false) = true
      rw [if_pos (by omega : k + 1 ≤ n)]
    rw [hrun_n1]
    simp only [List.getElem?_map, List.getElem?_range (by omega : k < n + 1),
      Option.map_some', stepResponse_update, hc, h0, Nat.zero_add, hcond]
    rw [stepResponse_mk, hcond]
    simp
  · have hcond : cardinality_not_exceeded (Times.exactly n) (n + 1) = false := by
      show (if n + 1 ≤ n then true else false) = false
      rw [if_neg (by omega : ¬ n + 1 ≤ n)]
    rw [hrun_n1]
    simp only [List.getElem?_map, List.getElem?_range (by omega : n < n + 1),
      Option.map_some', stepResponse_update, hc, h0, Nat.zero_add, hcond]
    rw [stepResponse_mk, hcond]
    simp
  · rw [hrun_n1]
    apply (verify_isSome_iff _).mpr
    left
    refine ⟨{ e with hit_count := e.hit_count + (n + 1) }, by simp, ?_⟩
    simp only [hc, h0]
    simp [hit_count_is_valid]

/-- C4 witness: the sample `Exactly(1)` expectation over two matching
requests — after one request verification succeeds; in the two-request run
the second dispatch yields the cardinality error and verification fails. -/
theorem exactly_n_scenario_witness :
    (verify_and_clear false
      (runRequests demoReq 1
        { unexpected_requests := 0, expected := [demoExpectation] }).1).2 =
      none ∧
    (runRequests demoReq 2
        { unexpected_requests := 0, expected := [demoExpectation] }).2[1]? =
      some (cardinality_error demoExpectation.matcher (Times.exactly 1) 2) ∧
    ((verify_and_clear false
      (runRequests demoReq 2
        { unexpected_requests := 0, expected := [demoExpectation] }).1).2).isSome =
      true :=
  have h := exactly_n_scenario 1 demoExpectation demoReq rfl rfl rfl
  ⟨h.1, h.2.2.1, h.2.2.2.2⟩

/-- C10: a single dispatch mutates at most one expectation's hit counter
(the first reverse-order match, by exactly one, all its other fields kept)
and, only when nothing matches, the unmatched-request counter (by exactly
one); the registry length — hence registration order and every non-selected
expectation — is always preserved. -/
theorem on_req_frame (s : ServerStateInner) (req : HttpRequest) :
    (∀ A B e, s.expected = A ++ e :: B →
      e.matcher.matchesReq req = true →
      (∀ x ∈ B, x.matcher.matchesReq req = false) →
      (on_req s req).1.unexpected_requests = s.unexpected_requests ∧
      (on_req s req).1.expected =
        A ++ { matcher := e.matcher, cardinality := e.cardinality,
               responder := e.responder, hit_count := e.hit_count + 1 } :: B) ∧
    ((∀ x ∈ s.expected, x.matcher.matchesReq req = false) →
      (on_req s req).1.expected = s.expected ∧
      (on_req s req).1.unexpected_requests = s.unexpected_requests + 1) ∧
    (on_req s req).1.expected.length = s.expected.length := by
  refine ⟨?_, ?_, ?_⟩
  · intro A B e hs he hB
    have hmain := on_req_selects s req A B e hs he hB
    rw [hmain]
    exact ⟨rfl, rfl⟩
  · intro h
    have hmain := on_req_nomatch s req h
    rw [hmain]
    exact ⟨rfl, rfl⟩
  · unfold on_req
    cases hd : dispatchRev req s.expected.reverse with
    | none => rfl
    | some p =>
      have hlen := dispatchRev_length req s.expected.reverse p hd
      simp only
      rw [List.length_reverse]
      rw [hlen, List.length_reverse]

/-- C10 witness: dispatching the sample GET request against a registry
holding one matching expectation bumps that expectation's counter only. -/
theorem on_req_frame_witness :
    (on_req { unexpected_requests := 0, expected := [demoExpectation] }
        demoReq).1.unexpected_requests = 0 ∧
    (on_req { unexpected_requests := 0, expected := [demoExpectation] }
        demoReq).1.expected =
      [{ matcher := demoExpectation.matcher,
         cardinality := demoExpectation.cardinality,
         responder := demoExpectation.responder,
         hit_count := demoExpectation.hit_count + 1 }] :=
  (on_req_frame { unexpected_requests := 0, expected := [demoExpectation] }
      demoReq).1 [] [] demoExpectation rfl rfl
    (by intro x hx; cases hx)

end Httptest
